import Mathlib

/-!
Verification of the QCN congestion-point queueing disciplines
(sch_tbf_switch.c and sch_fifo_switch.c) against their design
specification.  The C sources are shallowly embedded: the scheduler
private data becomes Lean structures, machine integers become Nat/Int
(with explicit reduction modulo 2^32 where a cast matters), packet
queues become lists, and every operation is a pure state-passing
function mirroring the corresponding C function line by line.
-/

/-! ## Constants (sch_tbf_switch.c lines 33-35) -/

/-- FRAME_KFIFO_SIZE: capacity (in frames) of the feedback kfifo ring. -/
def FRAME_KFIFO_SIZE : Nat := 32

/-- QCN_Q_EQ: target queue equilibrium in bytes (33 KB). -/
def QCN_Q_EQ : Int := 33792

/-- QCN_W: derivative weight of the QCN feedback computation. -/
def QCN_W : Int := 2

/-! ## Data model -/

/-- A packet handle (sk_buff) as the core observes it: byte length
(qdisc_pkt_len), whether the network header offset is set, whether the
protocol tag is ETH_P_IP, and the IPv4 source/destination addresses
read by the QCN sampling code. -/
structure Packet where
  len : Nat
  hasNetHeader : Bool
  isIPv4 : Bool
  saddr : Nat
  daddr : Nat
deriving DecidableEq

/-- struct qcn_frame (sch_tbf_switch.c lines 112-118).  Byte order of
the stored words is a representation detail and is not modelled. -/
structure QcnFrame where
  DA : Nat
  SA : Nat
  Fb : Nat
  qoff : Int
  qdelta : Int
deriving DecidableEq

/-- The feedback-sender side of struct qcn_kthread_t that the enqueue
fast path touches: the bounded frame kfifo, the counting semaphore
signalled after a successful put, and a count of the executions of the
full-ring branch (the branch that logs that the kfifo is full and
drops the frame). -/
structure QcnKthread where
  frame_fifo : List QcnFrame
  sem : Nat
  feedback_lost : Nat
deriving DecidableEq

/-- struct fifo_sched_data (sch_fifo_switch.c lines 31-41) together
with the queue (sch->q) and drop counter of the owning Qdisc. -/
structure FifoSched where
  limit : Nat
  q : List Packet
  drops : Nat
  qcn_qlen : Int
  qcn_qlen_old : Int
  sample : Int
  generate_fb_frame : Bool
deriving DecidableEq

/-- struct tbf_sched_data (sch_tbf_switch.c lines 141-168) together
with the Qdisc-level fields touched by the code (sch->q.qlen, stats,
the THROTTLED flag and the watchdog).  The inner qdisc is the default
bfifo.  The rate tables R_tab/P_tab are passed to tbf_dequeue as
function arguments rather than stored, so the state stays decidable. -/
structure TbfSched where
  limit : Nat
  buffer : Nat
  mtu : Nat
  max_size : Nat
  tokens : Int
  ptokens : Int
  t_c : Int
  qdisc : FifoSched
  watchdog : Option Int
  throttled : Bool
  sch_qlen : Nat
  bytes : Nat
  packets : Nat
  drops : Nat
  overlimits : Nat
  qlen : Int
  qlen_old : Int
  sample : Int
  th : QcnKthread
deriving DecidableEq

/-- Backlog in bytes of a packet list (sch->qstats.backlog, which the
kernel helpers keep equal to the sum of queued packet lengths). -/
def backlogBytes (l : List Packet) : Nat := (l.map Packet.len).sum

/-! ## BFIFO (sch_fifo_switch.c) -/

/-- qcn_init (sch_fifo_switch.c lines 51-57). -/
def qcn_init (f : FifoSched) : FifoSched :=
  { f with qcn_qlen := 0, qcn_qlen_old := 0, sample := 153600,
           generate_fb_frame := false }

/-- qcn_mark_table (sch_fifo_switch.c lines 59-71): switch on
qntz_Fb >> 3, default 153600. -/
def qcn_mark_table (qntz_Fb : Nat) : Int :=
  match qntz_Fb >>> 3 with
  | 0 => 153600
  | 1 => 76800
  | 2 => 51200
  | 3 => 38400
  | 4 => 30720
  | 5 => 25600
  | 6 => 22016
  | 7 => 18944
  | _ => 153600

/-- bfifo_enqueue (sch_fifo_switch.c lines 181-193): admit when
backlog + len fits in limit (qdisc_enqueue_tail, NET_XMIT_SUCCESS =
0), else qdisc_reshape_fail: free the packet, count the drop and
return NET_XMIT_DROP (1). -/
def bfifo_enqueue (f : FifoSched) (p : Packet) : Int × FifoSched :=
  if backlogBytes f.q + p.len ≤ f.limit then
    (0, { f with q := f.q ++ [p] })
  else
    (1, { f with drops := f.drops + 1 })

/-- bfifo_dequeue (sch_fifo_switch.c lines 211-222): the skb is
obtained with qdisc_peek_head, so it is returned WITHOUT being
removed from the queue; only qcn_qlen is decremented. -/
def bfifo_dequeue (f : FifoSched) : Option Packet × FifoSched :=
  match f.q.head? with
  | some skb => (some skb, { f with qcn_qlen := f.qcn_qlen - (skb.len : Int) })
  | none => (none, f)

/-- qdisc_queue_drop: unlink the tail packet and return its length
(0 when the queue is empty). -/
def qdisc_queue_drop (f : FifoSched) : Nat × FifoSched :=
  match f.q.getLast? with
  | some skb => (skb.len, { f with q := f.q.dropLast })
  | none => (0, f)

/-- bfifo_drop (sch_fifo_switch.c lines 201-209): drop the tail and,
when a nonzero length was dropped, subtract it from qcn_qlen. -/
def bfifo_drop (f : FifoSched) : Nat × FifoSched :=
  let r := qdisc_queue_drop f
  if r.1 ≠ 0 then
    (r.1, { r.2 with qcn_qlen := r.2.qcn_qlen - (r.1 : Int) })
  else (r.1, r.2)

/-- bfifo_reset_queue (sch_fifo_switch.c lines 195-199): re-initialize
the QCN variables and purge the queue. -/
def bfifo_reset_queue (f : FifoSched) : FifoSched :=
  { qcn_init f with q := [], drops := f.drops }

/-! ## QCN computation in tbf_enqueue (sch_tbf_switch.c lines 292-348) -/

/-- Fb computation with saturation (sch_tbf_switch.c lines 295-300):
Fb = (Q_EQ - qlen) - W*(qlen - qlen_old), clamped below at
-Q_EQ*(2W+1) and above at 0. -/
def tbfFb (qlen qlen_old : Int) : Int :=
  let Fb := (QCN_Q_EQ - qlen) - QCN_W * (qlen - qlen_old)
  if Fb < -QCN_Q_EQ * (2 * QCN_W + 1) then -QCN_Q_EQ * (2 * QCN_W + 1)
  else if Fb > 0 then 0
  else Fb

/-- Cast of a C int value to u32: reduce modulo 2^32 and read as a
natural number. -/
def u32cast (i : Int) : Nat := (i % (2 ^ 32)).toNat

/-- Quantization (sch_tbf_switch.c line 311):
qntz_Fb = ((u32) -Fb) >> 13 (this variant applies no 0x3F mask). -/
def tbfQntzFb (Fb : Int) : Nat := u32cast (-Fb) >>> 13

/-- kfifo_put + up(&sem) as performed by tbf_enqueue (sch_tbf_switch.c
lines 342-345): non-blocking insert into the 32-entry ring; when the
ring is full the frame is discarded and the full-ring branch (the
log message) is accounted. -/
def qcn_push (th : QcnKthread) (fr : QcnFrame) : QcnKthread :=
  if th.frame_fifo.length < FRAME_KFIFO_SIZE then
    { th with frame_fifo := th.frame_fifo ++ [fr], sem := th.sem + 1 }
  else
    { th with feedback_lost := th.feedback_lost + 1 }

/-! ## TBF operations (sch_tbf_switch.c) -/

/-- tbf_enqueue (sch_tbf_switch.c lines 278-361).  Returns the
NET_XMIT code (0 = success, 1 = NET_XMIT_DROP) and the new state.
The QCN block (lines 292-348) runs after the max_size check and
BEFORE the inner enqueue. -/
def tbf_enqueue (s : TbfSched) (p : Packet) : Int × TbfSched :=
  if p.len > s.max_size then
    -- qdisc_reshape_fail: count a drop, return NET_XMIT_DROP
    (1, { s with drops := s.drops + 1 })
  else
    let qlen1 := s.qlen + (p.len : Int)
    let Fb := tbfFb qlen1 s.qlen_old
    let qntz_Fb := tbfQntzFb Fb
    let sample1 := s.sample - (p.len : Int)
    let generate_fb_frame := decide (sample1 < 0) && decide (0 < qntz_Fb)
    let qlen_old1 := if sample1 < 0 then qlen1 else s.qlen_old
    let sample2 := if sample1 < 0 then (153600 : Int) else sample1
    let th1 :=
      if generate_fb_frame && p.hasNetHeader && p.isIPv4 then
        qcn_push s.th
          { DA := p.daddr, SA := p.saddr, Fb := qntz_Fb,
            qoff := QCN_Q_EQ - qlen1,
            qdelta := qlen1 - qlen_old1 }
      else s.th
    let s1 := { s with qlen := qlen1, qlen_old := qlen_old1,
                       sample := sample2, th := th1 }
    let r := bfifo_enqueue s1.qdisc p
    if r.1 = 0 then
      (0, { s1 with qdisc := r.2, sch_qlen := s1.sch_qlen + 1,
                    bytes := s1.bytes + p.len, packets := s1.packets + 1 })
    else
      -- net_xmit_drop_count is 1 for NET_XMIT_DROP, so the drop is counted
      (r.1, { s1 with qdisc := r.2, drops := s1.drops + 1 })

/-- tbf_drop (sch_tbf_switch.c lines 363-373): delegate to the inner
bfifo_drop; on a nonzero dropped length decrement sch->q.qlen and
count the drop.  The QCN qlen of the TBF itself is not touched. -/
def tbf_drop (s : TbfSched) : Nat × TbfSched :=
  let r := bfifo_drop s.qdisc
  if r.1 ≠ 0 then
    (r.1, { s with qdisc := r.2, sch_qlen := s.sch_qlen - 1,
                   drops := s.drops + 1 })
  else (r.1, { s with qdisc := r.2 })

/-- tbf_dequeue (sch_tbf_switch.c lines 375-436).  now is the value of
psched_get_time(); R and P are the qdisc_l2t lookups of R_tab and of
the optional P_tab.  The destructive dequeue goes through
qdisc_dequeue_peeked, which (the inner gso_skb being unused) calls the
inner bfifo_dequeue. -/
def tbf_dequeue (s : TbfSched) (now : Int) (R : Nat → Int)
    (P : Option (Nat → Int)) : Option Packet × TbfSched :=
  match s.qdisc.q.head? with
  | none => (none, s)
  | some skb =>
    let len := skb.len
    -- toks = psched_tdiff_bounded(now, t_c, buffer)
    let base := min (now - s.t_c) (s.buffer : Int)
    let ptoks : Int :=
      match P with
      | some Pt => min (base + s.ptokens) (s.mtu : Int) - Pt len
      | none => 0
    let toks := min (base + s.tokens) (s.buffer : Int) - R len
    if 0 ≤ Int.lor toks ptoks then
      let r := bfifo_dequeue s.qdisc
      match r.1 with
      | none => (none, { s with qdisc := r.2 })
      | some skb2 =>
        (some skb2,
         { s with qdisc := r.2, t_c := now, tokens := toks, ptokens := ptoks,
                  sch_qlen := s.sch_qlen - 1, throttled := false,
                  qlen := s.qlen - (len : Int) })
    else
      -- qdisc_watchdog_schedule(now + max(-toks, -ptoks)); overlimits++
      (none, { s with watchdog := some (now + max (-toks) (-ptoks)),
                      throttled := true, overlimits := s.overlimits + 1 })

/-- tbf_reset (sch_tbf_switch.c lines 438-448): reset the inner qdisc,
zero sch->q.qlen, set t_c to now, refill both buckets, cancel the
watchdog (qdisc_watchdog_cancel also clears the THROTTLED flag). -/
def tbf_reset (s : TbfSched) (now : Int) : TbfSched :=
  { s with qdisc := bfifo_reset_queue s.qdisc, sch_qlen := 0, t_c := now,
           tokens := (s.buffer : Int), ptokens := (s.mtu : Int),
           watchdog := none, throttled := false }

/-! ## TBF reconfiguration (sch_tbf_switch.c lines 456-533) -/

/-- struct tc_ratespec as used by tbf_change: the configured rate and
cell_log of a rate table. -/
structure TcRatespec where
  rate : Nat
  cell_log : Nat
deriving DecidableEq

/-- struct tc_tbf_qopt (the TCA_TBF_PARMS payload). -/
structure TcTbfQopt where
  limit : Nat
  buffer : Nat
  mtu : Nat
  rate : TcRatespec
  peakrate : TcRatespec
deriving DecidableEq

/-- The scan of tbf_change (sch_tbf_switch.c lines 487-488 and
493-494): the first index n < 256 whose table entry exceeds the
bound, or 256 when none does. -/
def rtab_cutoff (data : Nat → Nat) (bound : Nat) : Nat :=
  (((List.range 256).find? fun n => decide (bound < data n)).getD 256)

/-- A freshly created default bfifo child of the given limit
(fifo_create_dflt → fifo_set_limit → fifo_init, which runs
qcn_init). -/
def fifo_create_dflt (limit : Nat) : FifoSched :=
  { limit := limit, q := [], drops := 0, qcn_qlen := 0, qcn_qlen_old := 0,
    sample := 153600, generate_fb_frame := false }

/-- tbf_change (sch_tbf_switch.c lines 456-533).  opt models the
TCA_TBF_PARMS attribute (none = missing), rtab the result of
qdisc_get_rtab on qopt->rate (none = lookup failure) and ptab_arg the
analogous peak-rate lookup.  Errors are the C error returns
(-EINVAL = -22).  On success the committed state is returned: when
qopt->limit > 0 the inner qdisc is replaced by a fresh bfifo; limit,
mtu, max_size and buffer are taken from qopt, and both buckets are
refilled (tokens = buffer, ptokens = mtu). -/
def tbf_change (s : TbfSched) (opt : Option TcTbfQopt)
    (rtab : Option (Nat → Nat)) (ptab_arg : Option (Nat → Nat)) :
    Except Int TbfSched :=
  match opt with
  | none => Except.error (-22)
  | some qopt =>
    match rtab with
    | none => Except.error (-22)
    | some rdata =>
      if qopt.peakrate.rate ≠ 0 ∧
         (¬ qopt.rate.rate < qopt.peakrate.rate ∨ ptab_arg.isNone = true) then
        Except.error (-22)
      else
        let ptab : Option (Nat → Nat) :=
          if qopt.peakrate.rate ≠ 0 then ptab_arg else none
        let n1 := rtab_cutoff rdata qopt.buffer
        let max_size1 : Int := ((n1 <<< qopt.rate.cell_log : Nat) : Int) - 1
        let max_size2 : Int :=
          match ptab with
          | some pdata =>
            let n2 := rtab_cutoff pdata qopt.mtu
            min max_size1 (((n2 <<< qopt.peakrate.cell_log : Nat) : Int) - 1)
          | none => max_size1
        if max_size2 < 0 then Except.error (-22)
        else
          let child : Option FifoSched :=
            if 0 < qopt.limit then some (fifo_create_dflt qopt.limit) else none
          Except.ok
            { s with qdisc := child.getD s.qdisc, limit := qopt.limit,
                     mtu := qopt.mtu, max_size := max_size2.toNat,
                     buffer := qopt.buffer, tokens := (qopt.buffer : Int),
                     ptokens := (qopt.mtu : Int) }

/-! ## Definitions taken from the words of the specification (for
refinement comparisons only; the functions above are the embedding of
the source) -/

/-- The description in the claim of the saturation of Fb: the raw value
clamped to the interval from -Q_EQ*(2W+1) to 0. -/
def fbSpecSat (qlen qlen_old : Int) : Int :=
  max (-(QCN_Q_EQ * (2 * QCN_W + 1)))
    (min 0 ((QCN_Q_EQ - qlen) - QCN_W * (qlen - qlen_old)))

/-- The mark table of the claim as a function of the three upper bits
(index = qntz_Fb >> 3): 0 gives 153600, 1 gives 76800, 2 gives 51200,
3 gives 38400, 4 gives 30720, 5 gives 25600, 6 gives 22016, 7 gives
18944, and anything else the default 153600. -/
def specMarkTable (idx : Nat) : Int :=
  match idx with
  | 0 => 153600
  | 1 => 76800
  | 2 => 51200
  | 3 => 38400
  | 4 => 30720
  | 5 => 25600
  | 6 => 22016
  | 7 => 18944
  | _ => 153600

/-! ## Helper lemmas -/

/-- The C test (toks | ptoks) >= 0 on signed integers holds exactly
when both operands are nonnegative; the sign bit of a bitwise or is
the or of the sign bits. -/
theorem int_lor_nonneg (a b : Int) : 0 ≤ Int.lor a b ↔ 0 ≤ a ∧ 0 ≤ b := by
  cases a with
  | ofNat m =>
    cases b with
    | ofNat n => simp [Int.lor]
    | negSucc n =>
      simp only [Int.lor]
      constructor
      · intro h; exact absurd h (by exact Int.not_le.mpr (Int.negSucc_lt_zero _))
      · rintro ⟨-, h⟩; exact absurd h (by exact Int.not_le.mpr (Int.negSucc_lt_zero _))
  | negSucc m =>
    cases b with
    | ofNat n =>
      simp only [Int.lor]
      constructor
      · intro h; exact absurd h (by exact Int.not_le.mpr (Int.negSucc_lt_zero _))
      · rintro ⟨h, -⟩; exact absurd h (by exact Int.not_le.mpr (Int.negSucc_lt_zero _))
    | negSucc n =>
      simp only [Int.lor]
      constructor
      · intro h; exact absurd h (by exact Int.not_le.mpr (Int.negSucc_lt_zero _))
      · rintro ⟨h, -⟩; exact absurd h (by exact Int.not_le.mpr (Int.negSucc_lt_zero _))

/-- The saturated Fb value equals the clamp of the raw formula and
lies between -Q_EQ*(2W+1) = -168960 and 0. -/
theorem tbfFb_eq_spec_and_bounds (qlen qlen_old : Int) :
    tbfFb qlen qlen_old = fbSpecSat qlen qlen_old ∧
    -168960 ≤ tbfFb qlen qlen_old ∧ tbfFb qlen qlen_old ≤ 0 := by
  unfold tbfFb fbSpecSat QCN_Q_EQ QCN_W
  simp only [Int.max_def, Int.min_def]
  split_ifs <;> omega

/-- For a saturated Fb, the quantization is the plain right shift of
-Fb by 13 bits and is at most 20. -/
theorem tbfQntzFb_le_of_bounds {F : Int} (h1 : -168960 ≤ F) (h2 : F ≤ 0) :
    tbfQntzFb F ≤ 20 := by
  unfold tbfQntzFb u32cast
  have hmod : -F % 2 ^ 32 = -F := Int.emod_eq_of_lt (by omega) (by omega)
  rw [hmod, Nat.shiftRight_eq_div_pow]
  omega

/-- Claim C1: for every admission of a packet of length L with
pre-state (qlen, qlen_old) and parameters Q_EQ = 33792, W = 2, after
qlen is incremented by L the feedback computed by tbf_enqueue equals
Fb = (Q_EQ - qlen) - W*(qlen - qlen_old) saturated to the interval
[-Q_EQ*(2W+1), 0], and the quantized value
qntz_Fb = ((u32)(-Fb) >> 13) & 0x3F lies in 0..63 (in this source the
0x3F mask is a no-op, so the unmasked quantity of line 311 equals the
masked form). -/
theorem C1_fb_saturation_and_quantization (s : TbfSched) (p : Packet) :
    tbfFb (s.qlen + (p.len : Int)) s.qlen_old
      = fbSpecSat (s.qlen + (p.len : Int)) s.qlen_old ∧
    tbfQntzFb (tbfFb (s.qlen + (p.len : Int)) s.qlen_old) &&& 63
      = tbfQntzFb (tbfFb (s.qlen + (p.len : Int)) s.qlen_old) ∧
    tbfQntzFb (tbfFb (s.qlen + (p.len : Int)) s.qlen_old) ≤ 63 := by
  obtain ⟨he, h1, h2⟩ :=
    tbfFb_eq_spec_and_bounds (s.qlen + (p.len : Int)) s.qlen_old
  have h20 := tbfQntzFb_le_of_bounds h1 h2
  refine ⟨he, ?_, by omega⟩
  have hm := Nat.and_pow_two_sub_one_of_lt_two_pow
    (x := tbfQntzFb (tbfFb (s.qlen + (p.len : Int)) s.qlen_old))
    (n := 6) (by omega)
  simpa using hm
/-- Projections of tbf_enqueue below the max_size check: the QCN state
update (lines 293-324) happens regardless of the inner admission
verdict. -/
theorem tbf_enqueue_qcn_state (s : TbfSched) (p : Packet)
    (h : ¬ p.len > s.max_size) :
    (tbf_enqueue s p).2.qlen = s.qlen + (p.len : Int) ∧
    (tbf_enqueue s p).2.qlen_old
      = (if s.sample - (p.len : Int) < 0 then s.qlen + (p.len : Int)
         else s.qlen_old) ∧
    (tbf_enqueue s p).2.sample
      = (if s.sample - (p.len : Int) < 0 then (153600 : Int)
         else s.sample - (p.len : Int)) := by
  simp only [tbf_enqueue, if_neg h]
  split <;> simp

/-- The feedback hand-off of tbf_enqueue (lines 326-347): the frame
ring is handed a frame exactly when this admission is a sampling
instant with positive qntz_Fb and the packet is IPv4 with a network
header; nothing about a pending emission survives in the state
otherwise. -/
theorem tbf_enqueue_emission (s : TbfSched) (p : Packet)
    (h : ¬ p.len > s.max_size) :
    (tbf_enqueue s p).2.th =
      (if s.sample - (p.len : Int) < 0 ∧
          0 < tbfQntzFb (tbfFb (s.qlen + (p.len : Int)) s.qlen_old) ∧
          p.hasNetHeader = true ∧ p.isIPv4 = true then
         qcn_push s.th
           { DA := p.daddr, SA := p.saddr,
             Fb := tbfQntzFb (tbfFb (s.qlen + (p.len : Int)) s.qlen_old),
             qoff := QCN_Q_EQ - (s.qlen + (p.len : Int)),
             qdelta := 0 }
       else s.th) := by
  by_cases hs : s.sample - (p.len : Int) < 0 <;>
    by_cases hq : 0 < tbfQntzFb (tbfFb (s.qlen + (p.len : Int)) s.qlen_old) <;>
    by_cases hn : p.hasNetHeader = true <;>
    by_cases hip : p.isIPv4 = true <;>
    simp [tbf_enqueue, if_neg h, hs, hq, hn, hip] <;>
    split <;> simp

/-- tbf_enqueue when the inner bfifo rejects: the return code is
NET_XMIT_DROP and the drop is charged to both queues. -/
theorem tbf_enqueue_reject_ret (s : TbfSched) (p : Packet)
    (h1 : ¬ p.len > s.max_size)
    (h2 : ¬ backlogBytes s.qdisc.q + p.len ≤ s.qdisc.limit) :
    (tbf_enqueue s p).1 = 1 := by
  simp [tbf_enqueue, if_neg h1, bfifo_enqueue, if_neg h2]

/-- tbf_enqueue when the packet exceeds max_size: qdisc_reshape_fail
runs before any QCN work, so only the drop counter moves. -/
theorem tbf_enqueue_overlimit (s : TbfSched) (p : Packet)
    (h : p.len > s.max_size) :
    tbf_enqueue s p = (1, { s with drops := s.drops + 1 }) := by
  simp [tbf_enqueue, if_pos h]

/-- qcn_mark_table agrees everywhere with the table of the
specification indexed by the three upper bits qntz_Fb >> 3. -/
theorem qcn_mark_table_eq_spec (x : Nat) :
    qcn_mark_table x = specMarkTable (x >>> 3) := by
  unfold qcn_mark_table specMarkTable
  generalize x >>> 3 = n
  rcases n with _|_|_|_|_|_|_|_|n <;> rfl

/-- A 1500-byte IPv4 data packet with its network header set. -/
def pktIPv4 (len : Nat) : Packet :=
  { len := len, hasNetHeader := true, isIPv4 := true, saddr := 1, daddr := 2 }

/-- A freshly initialized TBF+bfifo instance (tbf_init followed by a
configuration with a one-megabyte inner limit, a 16384-byte max_size
and both buckets of depth zero): QCN variables are qlen = 0,
qlen_old = 0, sample = 153600 (sch_tbf_switch.c lines 549-552). -/
def tbfFresh : TbfSched :=
  { limit := 1000000, buffer := 0, mtu := 0, max_size := 16384,
    tokens := 0, ptokens := 0, t_c := 0,
    qdisc := { limit := 1000000, q := [], drops := 0, qcn_qlen := 0,
               qcn_qlen_old := 0, sample := 153600,
               generate_fb_frame := false },
    watchdog := none, throttled := false, sch_qlen := 0, bytes := 0,
    packets := 0, drops := 0, overlimits := 0, qlen := 0, qlen_old := 0,
    sample := 153600, th := { frame_fifo := [], sem := 0, feedback_lost := 0 } }

/-- n successive admissions of 1500-byte IPv4 packets. -/
def admitN : Nat → TbfSched → TbfSched
  | 0, s => s
  | n + 1, s => admitN n (tbf_enqueue s (pktIPv4 1500)).2

set_option maxRecDepth 100000 in
/-- Claim C2, counterexample: in the burst scenario the 103rd
1500-byte packet is the first sampling instant (sample_credit goes to
-900 < 0 at byte 154500), yet the sample credit refreshed by
tbf_enqueue is 153600 (sch_tbf_switch.c line 323), not the mark-table
value 22016 asserted by the claim. -/
theorem C2_counterexample :
    (admitN 102 tbfFresh).sample = 600 ∧
    (admitN 103 tbfFresh).sample = 153600 ∧
    (153600 : Int) ≠ 22016 := by
  refine ⟨by decide, by decide, by decide⟩

set_option maxRecDepth 100000 in
/-- Claim C2, amended: for every admission that drives sample_credit
below zero in the TBF path, the new sample_credit is the constant
153600 regardless of qntz_Fb (sch_tbf_switch.c line 323); the mark
table indexed by qntz_Fb >> 3 (0 gives 153600, 1 gives 76800, 2 gives
51200, 3 gives 38400, 4 gives 30720, 5 gives 25600, 6 gives 22016, 7
gives 18944, default 153600) exists as qcn_mark_table but is not
consulted by tbf_enqueue; in the 100x1500-byte burst scenario the
sample_credit after the sampling instant at packet 103 equals
153600. -/
theorem C2_amended :
    (∀ x : Nat, qcn_mark_table x = specMarkTable (x >>> 3)) ∧
    (∀ (s : TbfSched) (p : Packet), p.len ≤ s.max_size →
        s.sample - (p.len : Int) < 0 →
        (tbf_enqueue s p).2.sample = 153600) ∧
    (admitN 103 tbfFresh).sample = 153600 := by
  refine ⟨qcn_mark_table_eq_spec, ?_, by decide⟩
  intro s p hlen hs
  have h := (tbf_enqueue_qcn_state s p (by omega)).2.2
  rw [h, if_pos hs]

/-- Witness for C2_amended at a concrete input: a 1500-byte packet
admitted on a state whose sample credit stands at 100. -/
theorem C2_amended_witness :
    (pktIPv4 1500).len ≤ ({ tbfFresh with sample := 100 } : TbfSched).max_size ∧
    ({ tbfFresh with sample := 100 } : TbfSched).sample
      - ((pktIPv4 1500).len : Int) < 0 ∧
    (tbf_enqueue { tbfFresh with sample := 100 } (pktIPv4 1500)).2.sample
      = 153600 :=
  ⟨by decide, by decide,
   C2_amended.2.1 { tbfFresh with sample := 100 } (pktIPv4 1500)
     (by decide) (by decide)⟩

/-- A TBF instance whose inner bfifo holds one 1500-byte packet that
the QCN accounting has counted (qlen = 1500). -/
def tbfHolding : TbfSched :=
  { tbfFresh with
      qdisc := { tbfFresh.qdisc with q := [pktIPv4 1500] },
      sch_qlen := 1, qlen := 1500 }

/-- Claim C3 (code bug): tbf_drop delegates to the inner drop and
adjusts sch->q.qlen and the drop counter, but never subtracts the
dropped length from the QCN qlen of the TBF (sch_tbf_switch.c lines
363-373 touch no QCN state; the subtraction exists only on the
dequeue path, line 414).  Dropping the only 1500-byte packet leaves
qlen at 1500 over an empty queue. -/
theorem C3_drop_leaves_qlen :
    (∀ s : TbfSched, (tbf_drop s).2.qlen = s.qlen) ∧
    (tbf_drop tbfHolding).1 = 1500 ∧
    (tbf_drop tbfHolding).2.qdisc.q = [] ∧
    (tbf_drop tbfHolding).2.qlen = 1500 ∧
    (1500 : Int) ≠ 1500 - 1500 := by
  refine ⟨?_, by decide, by decide, by decide, by decide⟩
  intro s
  simp only [tbf_drop]
  split <;> rfl

/-- Two distinguishable packets for the FIFO-order arguments. -/
def pktA : Packet :=
  { len := 100, hasNetHeader := true, isIPv4 := true, saddr := 3, daddr := 4 }

/-- Second distinguishable packet. -/
def pktB : Packet :=
  { len := 200, hasNetHeader := true, isIPv4 := true, saddr := 5, daddr := 6 }

/-- A standalone bfifo holding pktA then pktB. -/
def fifoTwo : FifoSched :=
  { limit := 1000, q := [pktA, pktB], drops := 0, qcn_qlen := 300,
    qcn_qlen_old := 0, sample := 153600, generate_fb_frame := false }

/-- Claim C6 (code bug): bfifo_dequeue returns the head packet but
obtains it with qdisc_peek_head and never unlinks it
(sch_fifo_switch.c lines 211-222), so the queue and its backlog are
unchanged and a second dequeue returns the same head again; on an
empty queue it returns nothing. -/
theorem C6_dequeue_returns_without_removing :
    (bfifo_dequeue fifoTwo).1 = some pktA ∧
    (bfifo_dequeue fifoTwo).2.q = [pktA, pktB] ∧
    backlogBytes (bfifo_dequeue fifoTwo).2.q = backlogBytes fifoTwo.q ∧
    (bfifo_dequeue (bfifo_dequeue fifoTwo).2).1 = some pktA ∧
    (∀ f : FifoSched, (bfifo_dequeue f).2.q = f.q) ∧
    (bfifo_dequeue { fifoTwo with q := [] }).1 = none := by
  refine ⟨by decide, by decide, by decide, by decide, ?_, by decide⟩
  intro f
  cases hq : f.q.head? <;> simp [bfifo_dequeue, hq]

/-- The TBF state reached by the burst scenario, with its QCN
variables loaded. -/
def tbfAfterBurst : TbfSched :=
  { tbfFresh with qlen := 154500, qlen_old := 154500, sample := 153600 }

/-- Claim C7, counterexample: tbf_reset (sch_tbf_switch.c lines
438-448) never touches the QCN variables, so after a reset of a state
with qlen = 154500 the QCN qlen still reads 154500, not 0. -/
theorem C7_counterexample :
    (tbf_reset tbfAfterBurst 0).qlen = 154500 ∧
    (154500 : Int) ≠ 0 := by
  exact ⟨by decide, by decide⟩

/-- Claim C7, amended: after tbf_reset both buckets are refilled
(tokens = buffer, ptokens = mtu), the inner queue is emptied (and the
own QCN variables of the inner bfifo are re-initialized through
bfifo_reset_queue), sch->q.qlen is zeroed, t_c is set to the reset
time, and the watchdog is cancelled (clearing THROTTLED); the TBF
QCN-CP variables qlen, qlen_old and sample_credit are left unchanged,
and the TBF keeps no persistent pending-feedback flag that a reset
could clear. -/
theorem C7_amended (s : TbfSched) (now : Int) :
    (tbf_reset s now).tokens = (s.buffer : Int) ∧
    (tbf_reset s now).ptokens = (s.mtu : Int) ∧
    (tbf_reset s now).qdisc.q = [] ∧
    (tbf_reset s now).qdisc.qcn_qlen = 0 ∧
    (tbf_reset s now).qdisc.sample = 153600 ∧
    (tbf_reset s now).sch_qlen = 0 ∧
    (tbf_reset s now).t_c = now ∧
    (tbf_reset s now).watchdog = none ∧
    (tbf_reset s now).throttled = false ∧
    (tbf_reset s now).qlen = s.qlen ∧
    (tbf_reset s now).qlen_old = s.qlen_old ∧
    (tbf_reset s now).sample = s.sample := by
  refine ⟨rfl, rfl, rfl, rfl, rfl, rfl, rfl, rfl, rfl, rfl, rfl, rfl⟩

/-- A TBF whose inner bfifo is exactly full (backlog = limit), so the
next inner enqueue is rejected. -/
def tbfInnerFull : TbfSched :=
  { tbfFresh with
      qdisc := { limit := 1000, q := [pktIPv4 1000], drops := 0,
                 qcn_qlen := 0, qcn_qlen_old := 0, sample := 153600,
                 generate_fb_frame := false },
      sch_qlen := 1 }

/-- Claim C5, counterexample: admitting a 500-byte packet on a full
inner queue is rejected (NET_XMIT_DROP), yet the QCN observation has
already run: qlen moved from 0 to 500 and the sample credit was
decremented, because the QCN block (lines 292-348) precedes the inner
qdisc_enqueue (line 350). -/
theorem C5_counterexample :
    (tbf_enqueue tbfInnerFull (pktIPv4 500)).1 = 1 ∧
    tbfInnerFull.qlen = 0 ∧
    (tbf_enqueue tbfInnerFull (pktIPv4 500)).2.qlen = 500 ∧
    (tbf_enqueue tbfInnerFull (pktIPv4 500)).2.sample = 153100 ∧
    (500 : Int) ≠ 0 := by
  exact ⟨by decide, by decide, by decide, by decide, by decide⟩

/-- Claim C5, amended: a packet within max_size that the inner queue
rejects has already been observed by QCN -- qlen is incremented by its
length and sample_credit updated (with a possible feedback push) --
because the QCN step runs after the max_size check and before the
inner enqueue; only a packet larger than max_size leaves the whole
QCN state untouched. -/
theorem C5_amended :
    (∀ (s : TbfSched) (p : Packet), p.len ≤ s.max_size →
        s.qdisc.limit < backlogBytes s.qdisc.q + p.len →
        (tbf_enqueue s p).1 = 1 ∧
        (tbf_enqueue s p).2.qlen = s.qlen + (p.len : Int) ∧
        (tbf_enqueue s p).2.sample
          = (if s.sample - (p.len : Int) < 0 then (153600 : Int)
             else s.sample - (p.len : Int))) ∧
    (∀ (s : TbfSched) (p : Packet), s.max_size < p.len →
        tbf_enqueue s p = (1, { s with drops := s.drops + 1 })) := by
  constructor
  · intro s p h1 h2
    exact ⟨tbf_enqueue_reject_ret s p (by omega) (by omega),
           (tbf_enqueue_qcn_state s p (by omega)).1,
           (tbf_enqueue_qcn_state s p (by omega)).2.2⟩
  · intro s p h
    exact tbf_enqueue_overlimit s p h

/-- Witness for C5_amended at the concrete full-queue input. -/
theorem C5_amended_witness :
    (pktIPv4 500).len ≤ tbfInnerFull.max_size ∧
    tbfInnerFull.qdisc.limit
      < backlogBytes tbfInnerFull.qdisc.q + (pktIPv4 500).len ∧
    (tbf_enqueue tbfInnerFull (pktIPv4 500)).2.qlen
      = tbfInnerFull.qlen + ((pktIPv4 500).len : Int) :=
  ⟨by decide, by decide,
   (C5_amended.1 tbfInnerFull (pktIPv4 500) (by decide) (by decide)).2.1⟩

/-- The rate-bucket balance tbf_dequeue computes for a head packet of
the given length (sch_tbf_switch.c lines 389, 397-400): the bounded
accrual min(now - t_c, buffer) added to the stored tokens, the sum
clamped to buffer, minus the R_tab cost. -/
def tbfToks (s : TbfSched) (now : Int) (R : Nat → Int) (len : Nat) : Int :=
  min (min (now - s.t_c) (s.buffer : Int) + s.tokens) (s.buffer : Int) - R len

/-- The peak-bucket balance (lines 391-396): zero when no peak table
is configured, otherwise the bounded accrual added to the stored
ptokens, clamped to mtu, minus the P_tab cost. -/
def tbfPtoks (s : TbfSched) (now : Int) (P : Option (Nat → Int))
    (len : Nat) : Int :=
  match P with
  | some Pt => min (min (now - s.t_c) (s.buffer : Int) + s.ptokens)
                 (s.mtu : Int) - Pt len
  | none => 0

/-- Claim C4, amended: on a dequeue attempt with a non-empty inner
queue and head packet p, with toks the bounded accrual
min(now - t_c, buffer) + tokens CLAMPED TO buffer minus the R_tab
cost, and ptoks the analogous mtu-clamped peak balance, the head
packet is returned exactly when toks >= 0 and ptoks >= 0, in which
case t_c, tokens and ptokens are committed and THROTTLED cleared (and
the QCN qlen is decremented); otherwise the watchdog is armed at
now + max(-toks, -ptoks), overlimits is incremented and nothing is
returned. -/
theorem C4_amended (s : TbfSched) (now : Int) (R : Nat → Int)
    (P : Option (Nat → Int)) (p : Packet) (rest : List Packet)
    (hq : s.qdisc.q = p :: rest) :
    (0 ≤ tbfToks s now R p.len ∧ 0 ≤ tbfPtoks s now P p.len →
      (tbf_dequeue s now R P).1 = some p ∧
      (tbf_dequeue s now R P).2.t_c = now ∧
      (tbf_dequeue s now R P).2.tokens = tbfToks s now R p.len ∧
      (tbf_dequeue s now R P).2.ptokens = tbfPtoks s now P p.len ∧
      (tbf_dequeue s now R P).2.throttled = false ∧
      (tbf_dequeue s now R P).2.qlen = s.qlen - (p.len : Int) ∧
      (tbf_dequeue s now R P).2.overlimits = s.overlimits) ∧
    (¬ (0 ≤ tbfToks s now R p.len ∧ 0 ≤ tbfPtoks s now P p.len) →
      (tbf_dequeue s now R P).1 = none ∧
      (tbf_dequeue s now R P).2.watchdog
        = some (now + max (- tbfToks s now R p.len)
                          (- tbfPtoks s now P p.len)) ∧
      (tbf_dequeue s now R P).2.overlimits = s.overlimits + 1 ∧
      (tbf_dequeue s now R P).2.tokens = s.tokens ∧
      (tbf_dequeue s now R P).2.qlen = s.qlen) := by
  have hlor := int_lor_nonneg (tbfToks s now R p.len) (tbfPtoks s now P p.len)
  constructor
  · intro hcond
    have hc := hlor.mpr hcond
    cases P with
    | none =>
      simp only [tbf_dequeue, hq, bfifo_dequeue, List.head?_cons]
      split_ifs with h
      · exact ⟨rfl, rfl, rfl, rfl, rfl, rfl, rfl⟩
      · exact absurd hc h
    | some Pt =>
      simp only [tbf_dequeue, hq, bfifo_dequeue, List.head?_cons]
      split_ifs with h
      · exact ⟨rfl, rfl, rfl, rfl, rfl, rfl, rfl⟩
      · exact absurd hc h
  · intro hcond
    have hc : ¬ 0 ≤ Int.lor (tbfToks s now R p.len) (tbfPtoks s now P p.len) :=
      fun h => hcond (hlor.mp h)
    cases P with
    | none =>
      simp only [tbf_dequeue, hq, bfifo_dequeue, List.head?_cons]
      split_ifs with h
      · exact absurd h hc
      · exact ⟨rfl, rfl, rfl, rfl, rfl⟩
    | some Pt =>
      simp only [tbf_dequeue, hq, bfifo_dequeue, List.head?_cons]
      split_ifs with h
      · exact absurd h hc
      · exact ⟨rfl, rfl, rfl, rfl, rfl⟩

/-- A TBF with pktA queued, a 10-unit bucket partly filled and a rate
cost of 2 time units for any length. -/
def tbfDeq : TbfSched :=
  { tbfFresh with qdisc := { tbfFresh.qdisc with q := [pktA] },
                  sch_qlen := 1, buffer := 10, tokens := 5, t_c := 0 }

/-- Witness for C4_amended: at time 3 with cost 2 the balance
min(min(3-0,10)+5,10)-2 = 6 is nonnegative, so the head packet is
returned and the committed tokens equal that balance. -/
theorem C4_amended_witness :
    0 ≤ tbfToks tbfDeq 3 (fun _ => 2) pktA.len ∧
    0 ≤ tbfPtoks tbfDeq 3 none pktA.len ∧
    (tbf_dequeue tbfDeq 3 (fun _ => 2) none).1 = some pktA ∧
    (tbf_dequeue tbfDeq 3 (fun _ => 2) none).2.tokens
      = tbfToks tbfDeq 3 (fun _ => 2) pktA.len :=
  ⟨by decide, by decide,
   ((C4_amended tbfDeq 3 (fun _ => 2) none pktA [] rfl).1
      ⟨by decide, by decide⟩).1,
   ((C4_amended tbfDeq 3 (fun _ => 2) none pktA [] rfl).1
      ⟨by decide, by decide⟩).2.2.1⟩

/-- A TBF with a full bucket (tokens = buffer = 10) long idle
(now - t_c = 20 exceeds buffer). -/
def tbfFull : TbfSched :=
  { tbfFresh with qdisc := { tbfFresh.qdisc with q := [pktA] },
                  sch_qlen := 1, buffer := 10, tokens := 10, t_c := 0 }

/-- Claim C4, counterexample: at now = 20 with zero cost the code
clamps min(now - t_c, buffer) + tokens to buffer and commits
tokens = 10 (sch_tbf_switch.c lines 397-399), while the unclamped
claim formula min(now - t_c, buffer) + tokens gives 20. -/
theorem C4_counterexample :
    (tbf_dequeue tbfFull 20 (fun _ => 0) none).1 = some pktA ∧
    (tbf_dequeue tbfFull 20 (fun _ => 0) none).2.tokens = 10 ∧
    min ((20 : Int) - tbfFull.t_c) (tbfFull.buffer : Int) + tbfFull.tokens
      - 0 = 20 ∧
    (10 : Int) ≠ 20 := by
  exact ⟨by decide, by decide, by decide, by decide⟩

/-- A 1500-byte non-IPv4 packet (network header present, protocol not
ETH_P_IP). -/
def pktNonIP (len : Nat) : Packet :=
  { len := len, hasNetHeader := true, isIPv4 := false, saddr := 7, daddr := 8 }

/-- A TBF seen mid-run: qlen = 20000 with the sample credit nearly
exhausted (10 bytes left). -/
def tbfC8start : TbfSched := { tbfFresh with qlen := 20000, sample := 10 }

/-- State after admitting one 1500-byte non-IPv4 packet on
tbfC8start: a sampling instant with qntz_Fb = 3 > 0 that emits
nothing. -/
def c8afterNonIP : TbfSched := (tbf_enqueue tbfC8start (pktNonIP 1500)).2

/-- One round of traffic that leaves qlen unchanged: admit a
1500-byte IPv4 packet, then run one successful dequeue (zero-cost
rate table, empty bucket of depth zero at time 0). -/
def c8round (s : TbfSched) : TbfSched :=
  (tbf_dequeue (tbf_enqueue s (pktIPv4 1500)).2 0 (fun _ => 0) none).2

/-- Iterated rounds. -/
def c8iter : Nat → TbfSched → TbfSched
  | 0, s => s
  | n + 1, s => c8iter n (c8round s)

set_option maxRecDepth 400000 in
/-- Claim C8, counterexample: the non-IPv4 admission on tbfC8start is
a sampling instant with qntz_Fb = 3 > 0 and emits nothing; after 102
rounds the sample credit stands at 600, so the next 1500-byte IPv4
admission is again a sampling instant; but the frame ring is still
empty after it: no indication was retained (generate_fb_frame is a
local of tbf_enqueue), and at that instant qntz_Fb = 0 so the sampled
IPv4 packet emits no feedback frame, contrary to the claim. -/
theorem C8_counterexample :
    tbfC8start.sample - ((pktNonIP 1500).len : Int) < 0 ∧
    tbfQntzFb (tbfFb (tbfC8start.qlen + ((pktNonIP 1500).len : Int))
      tbfC8start.qlen_old) = 3 ∧
    (pktNonIP 1500).isIPv4 = false ∧
    c8afterNonIP.th.frame_fifo = [] ∧
    (c8iter 102 c8afterNonIP).sample = 600 ∧
    (c8iter 102 c8afterNonIP).sample - ((pktIPv4 1500).len : Int) < 0 ∧
    (pktIPv4 1500).isIPv4 = true ∧
    (tbf_enqueue (c8iter 102 c8afterNonIP) (pktIPv4 1500)).2.th.frame_fifo
      = [] := by
  exact ⟨by decide, by decide, by decide, by decide, by decide, by decide,
         by decide, by decide⟩

/-- Claim C8, amended: in the TBF admission path the feedback
indication is local to each admission.  A frame is pushed to the ring
exactly when the admission itself is a sampling instant with
qntz_Fb > 0 and the packet is IPv4 with a network header (a non-IPv4
packet at such an instant emits nothing and leaves no pending
indication); the persistent QCN state after an admission depends on
the packet only through its length, never on its protocol. -/
theorem C8_amended :
    (∀ (s : TbfSched) (p : Packet), p.len ≤ s.max_size →
        (tbf_enqueue s p).2.th =
          (if s.sample - (p.len : Int) < 0 ∧
              0 < tbfQntzFb (tbfFb (s.qlen + (p.len : Int)) s.qlen_old) ∧
              p.hasNetHeader = true ∧ p.isIPv4 = true then
             qcn_push s.th
               { DA := p.daddr, SA := p.saddr,
                 Fb := tbfQntzFb (tbfFb (s.qlen + (p.len : Int)) s.qlen_old),
                 qoff := QCN_Q_EQ - (s.qlen + (p.len : Int)),
                 qdelta := 0 }
           else s.th)) ∧
    (∀ (s : TbfSched) (p p2 : Packet), p.len = p2.len → p.len ≤ s.max_size →
        (tbf_enqueue s p).2.qlen = (tbf_enqueue s p2).2.qlen ∧
        (tbf_enqueue s p).2.qlen_old = (tbf_enqueue s p2).2.qlen_old ∧
        (tbf_enqueue s p).2.sample = (tbf_enqueue s p2).2.sample) := by
  constructor
  · intro s p h
    exact tbf_enqueue_emission s p (by omega)
  · intro s p p2 hlen h
    obtain ⟨hp1, hp2, hp3⟩ := tbf_enqueue_qcn_state s p (by omega)
    obtain ⟨hq1, hq2, hq3⟩ := tbf_enqueue_qcn_state s p2 (by omega)
    rw [hp1, hq1, hp2, hq2, hp3, hq3, hlen]
    exact ⟨rfl, rfl, rfl⟩

/-- Witness for C8_amended: an IPv4 and a non-IPv4 packet of equal
length starting from the same mid-run state leave identical
persistent QCN state. -/
theorem C8_amended_witness :
    (pktIPv4 1500).len = (pktNonIP 1500).len ∧
    (pktIPv4 1500).len ≤ tbfC8start.max_size ∧
    (tbf_enqueue tbfC8start (pktIPv4 1500)).2.sample
      = (tbf_enqueue tbfC8start (pktNonIP 1500)).2.sample :=
  ⟨by decide, by decide,
   (C8_amended.2 tbfC8start (pktIPv4 1500) (pktNonIP 1500)
      (by decide) (by decide)).2.2⟩

/-- An empty feedback emitter. -/
def emStart : QcnKthread := { frame_fifo := [], sem := 0, feedback_lost := 0 }

/-- The i-th distinct feedback frame of the 40-push scenario. -/
def mkFrame40 (i : Nat) : QcnFrame :=
  { DA := i, SA := i + 100, Fb := 20, qoff := -120708, qdelta := 0 }

/-- 40 consecutive pushes of distinct frames onto an undrained ring. -/
def c9final : QcnKthread :=
  (List.range 40).foldl (fun th i => qcn_push th (mkFrame40 i)) emStart

set_option maxRecDepth 100000 in
/-- Claim C9: the push from the admission side is a non-blocking
insert into the 32-entry ring: with space the frame is appended in
order and the consumer semaphore signalled; on a full ring the frame
is dropped and the loss accounted (the full-ring branch of
sch_tbf_switch.c lines 342-343).  40 consecutive pushes on an
undrained ring leave the first 32 frames enqueued in order and 8
losses accounted. -/
theorem C9_feedback_ring :
    (∀ (th : QcnKthread) (fr : QcnFrame), th.frame_fifo.length < 32 →
        (qcn_push th fr).frame_fifo = th.frame_fifo ++ [fr] ∧
        (qcn_push th fr).sem = th.sem + 1 ∧
        (qcn_push th fr).feedback_lost = th.feedback_lost) ∧
    (∀ (th : QcnKthread) (fr : QcnFrame), ¬ th.frame_fifo.length < 32 →
        (qcn_push th fr).frame_fifo = th.frame_fifo ∧
        (qcn_push th fr).sem = th.sem ∧
        (qcn_push th fr).feedback_lost = th.feedback_lost + 1) ∧
    c9final.frame_fifo = (List.range 32).map mkFrame40 ∧
    c9final.feedback_lost = 8 ∧
    c9final.sem = 32 := by
  refine ⟨?_, ?_, by decide, by decide, by decide⟩
  · intro th fr h
    simp [qcn_push, FRAME_KFIFO_SIZE, h]
  · intro th fr h
    simp [qcn_push, FRAME_KFIFO_SIZE, h]

/-- Witness for C9_feedback_ring: one push on the empty ring inserts
the frame and signals the semaphore. -/
theorem C9_feedback_ring_witness :
    emStart.frame_fifo.length < 32 ∧
    (qcn_push emStart (mkFrame40 0)).frame_fifo = [mkFrame40 0] ∧
    (qcn_push emStart (mkFrame40 0)).sem = 1 :=
  ⟨by decide,
   by simpa using (C9_feedback_ring.1 emStart (mkFrame40 0) (by decide)).1,
   by simpa using (C9_feedback_ring.1 emStart (mkFrame40 0) (by decide)).2.1⟩

/-- Claim C10: every successful tbf_change refills both buckets from
the new parameters (tokens = buffer, ptokens = mtu,
sch_tbf_switch.c lines 518-520) and leaves the QCN-CP state (qlen,
qlen_old, sample) and the feedback thread untouched, even when
qopt->limit > 0 replaces the inner qdisc by a fresh bfifo. -/
theorem C10_change_refills_buckets_keeps_qcn (s : TbfSched)
    (qopt : TcTbfQopt) (rt pt : Option (Nat → Nat)) (s2 : TbfSched)
    (h : tbf_change s (some qopt) rt pt = Except.ok s2) :
    s2.tokens = (qopt.buffer : Int) ∧
    s2.ptokens = (qopt.mtu : Int) ∧
    s2.buffer = qopt.buffer ∧
    s2.mtu = qopt.mtu ∧
    s2.limit = qopt.limit ∧
    s2.qlen = s.qlen ∧
    s2.qlen_old = s.qlen_old ∧
    s2.sample = s.sample ∧
    s2.th = s.th ∧
    (0 < qopt.limit → s2.qdisc = fifo_create_dflt qopt.limit) := by
  cases rt with
  | none => exact absurd h (by simp [tbf_change])
  | some rdata =>
    simp only [tbf_change] at h
    split_ifs at h <;>
      first
        | exact Except.noConfusion h
        | (rw [Except.ok.injEq] at h
           subst h
           refine ⟨rfl, rfl, rfl, rfl, rfl, rfl, rfl, rfl, rfl, ?_⟩
           first
             | (intro hl; exact rfl)
             | (intro hl; exact absurd hl (by assumption)))

/-- A concrete configuration: no peak rate, identity rate table,
limit 1000 (so a fresh inner bfifo is created), buffer 100, mtu 50.
The table scan stops at n = 101 (the first entry exceeding 100), so
max_size = 100. -/
def qoptW : TcTbfQopt :=
  { limit := 1000, buffer := 100, mtu := 50,
    rate := { rate := 8, cell_log := 0 },
    peakrate := { rate := 0, cell_log := 0 } }

/-- The state tbf_change commits for qoptW on tbfFresh. -/
def tbfChanged : TbfSched :=
  { tbfFresh with qdisc := fifo_create_dflt 1000, limit := 1000, mtu := 50,
                  max_size := 100, buffer := 100, tokens := 100, ptokens := 50 }

/-- Witness for C10 at the concrete configuration qoptW. -/
theorem C10_change_witness :
    tbf_change tbfFresh (some qoptW) (some fun n => n) none
      = Except.ok tbfChanged ∧
    tbfChanged.tokens = (qoptW.buffer : Int) ∧
    tbfChanged.ptokens = (qoptW.mtu : Int) ∧
    tbfChanged.qlen = tbfFresh.qlen :=
  ⟨by rfl,
   (C10_change_refills_buckets_keeps_qcn tbfFresh qoptW (some fun n => n)
      none tbfChanged (by rfl)).1,
   (C10_change_refills_buckets_keeps_qcn tbfFresh qoptW (some fun n => n)
      none tbfChanged (by rfl)).2.1,
   (C10_change_refills_buckets_keeps_qcn tbfFresh qoptW (some fun n => n)
      none tbfChanged (by rfl)).2.2.2.2.2.1⟩
